import Mathlib

/-!
Verification of the network MAC scanner (src/network-mac-scanner/mac_scanner.py)
against its natural-language specification.

Python strings are modelled as lists of characters; the scanner only manipulates ASCII
text, so the ASCII fragment of Python's str.lower/str.upper/str.strip is
modelled exactly.
-/

set_option maxRecDepth 4000

/-- ASCII case-folding table used by the model of Python's str.lower
(the scanner only ever handles ASCII text). -/
def lowerTable : List (Char × Char) :=
  [('A','a'), ('B','b'), ('C','c'), ('D','d'), ('E','e'), ('F','f'), ('G','g'),
   ('H','h'), ('I','i'), ('J','j'), ('K','k'), ('L','l'), ('M','m'), ('N','n'),
   ('O','o'), ('P','p'), ('Q','q'), ('R','r'), ('S','s'), ('T','t'), ('U','u'),
   ('V','v'), ('W','w'), ('X','x'), ('Y','y'), ('Z','z')]

/-- ASCII case-folding table used by the model of Python's str.upper. -/
def upperTable : List (Char × Char) :=
  [('a','A'), ('b','B'), ('c','C'), ('d','D'), ('e','E'), ('f','F'), ('g','G'),
   ('h','H'), ('i','I'), ('j','J'), ('k','K'), ('l','L'), ('m','M'), ('n','N'),
   ('o','O'), ('p','P'), ('q','Q'), ('r','R'), ('s','S'), ('t','T'), ('u','U'),
   ('v','V'), ('w','W'), ('x','X'), ('y','Y'), ('z','Z')]

/-- First-match table lookup; identity when the key is absent. -/
def tableGet (t : List (Char × Char)) (c : Char) : Char :=
  match t with
  | [] => c
  | (k, v) :: rest => if k == c then v else tableGet rest c

/-- Model of Python's str.lower on one ASCII character. -/
def pyToLower (c : Char) : Char := tableGet lowerTable c

/-- Model of Python's str.upper on one ASCII character. -/
def pyToUpper (c : Char) : Char := tableGet upperTable c

/-- Model of Python's str.lower. -/
def pyLower (l : List Char) : List Char := l.map pyToLower

/-- Model of Python's str.upper. -/
def pyUpper (l : List Char) : List Char := l.map pyToUpper

/-- The hexadecimal digit characters: the character class of the regex
fragments [0-9a-fA-F] (mac_scanner.py line 55) and, with re.IGNORECASE,
[0-9a-f] (lines 96, 150). -/
def hexDigits : List Char :=
  ['a','b','c','d','e','f','A','B','C','D','E','F',
   '0','1','2','3','4','5','6','7','8','9']

/-- Membership in the hex-digit character class. -/
def isHexDigit (c : Char) : Bool := decide (c ∈ hexDigits)

/-- Python/regex whitespace characters (the regex class backslash-s and the
default character set of str.strip): space, tab, newline, carriage return,
vertical tab, form feed. -/
def isSpaceChar (c : Char) : Bool :=
  decide (c ∈ [' ', '\t', '\n', '\r', Char.ofNat 11, Char.ofNat 12])

/-- The regex class backslash-d (ASCII fragment). -/
def isDigitChar (c : Char) : Bool :=
  decide (c ∈ ['0','1','2','3','4','5','6','7','8','9'])

/-- The regex class backslash-w (ASCII fragment): letters, digits, underscore. -/
def isWordChar (c : Char) : Bool :=
  (('a' ≤ c && c ≤ 'z') || ('A' ≤ c && c ≤ 'Z') ||
   ('0' ≤ c && c ≤ '9') || c == '_')

/-- Model of Python's str.strip (both ends, whitespace). -/
def pyStrip (l : List Char) : List Char :=
  ((l.dropWhile isSpaceChar).reverse.dropWhile isSpaceChar).reverse

/-- Model of Python's str.split on a single-character separator
(mac_scanner.py line 177 splits on a comma). -/
def pySplitAux (sep : Char) : List Char → List Char → List (List Char)
  | [], acc => [acc.reverse]
  | c :: cs, acc =>
    if c == sep then acc.reverse :: pySplitAux sep cs []
    else pySplitAux sep cs (c :: acc)

/-- Model of Python's str.split on a single-character separator. -/
def pySplit (sep : Char) (l : List Char) : List (List Char) := pySplitAux sep l []

/-- Model of Python's str.splitlines restricted to newline separators.
(A trailing newline yields a trailing empty line here, which Python's
splitlines drops; no row pattern of the scanner can match an empty line,
so the parsers below are unaffected.) -/
def splitLines (l : List Char) : List (List Char) := pySplit '\n' l

/-- Boolean list-prefix test (needle is a prefix of the haystack). -/
def isPrefixList : List Char → List Char → Bool
  | [], _ => true
  | _ :: _, [] => false
  | a :: as, b :: bs => a == b && isPrefixList as bs

/-- Model of Python's substring containment test (x in y for strings). -/
def isSubstr (needle : List Char) : List Char → Bool
  | [] => needle.isEmpty
  | c :: cs => isPrefixList needle (c :: cs) || isSubstr needle cs

/-- mac_scanner.py lines 53-56: strip every non-hex character
(re.sub with the class complement of [0-9a-fA-F]) and join the three
4-digit slices with hyphens. -/
def mac_to_huawei_format (mac : List Char) : List Char :=
  let mac_clean := mac.filter isHexDigit
  (mac_clean.take 4) ++ '-' :: ((mac_clean.drop 4).take 4)
    ++ '-' :: ((mac_clean.drop 8).take 4)

/-- mac_scanner.py lines 59-62: drop hyphens, lowercase, join the six
2-digit slices with colons, uppercase. -/
def huawei_mac_to_standard (mac : List Char) : List Char :=
  let mac_clean := pyLower (mac.filter (fun c => !(c == '-')))
  pyUpper ((mac_clean.take 2)
    ++ ':' :: ((mac_clean.drop 2).take 2)
    ++ ':' :: ((mac_clean.drop 4).take 2)
    ++ ':' :: ((mac_clean.drop 6).take 2)
    ++ ':' :: ((mac_clean.drop 8).take 2)
    ++ ':' :: ((mac_clean.drop 10).take 2))

/-- A valid standard MAC string: six colon-separated two-hex-digit groups. -/
def isStdMac : List Char → Bool
  | [d1,d2,s1,d3,d4,s2,d5,d6,s3,d7,d8,s4,d9,d10,s5,d11,d12] =>
    isHexDigit d1 && isHexDigit d2 && (s1 == ':') &&
    isHexDigit d3 && isHexDigit d4 && (s2 == ':') &&
    isHexDigit d5 && isHexDigit d6 && (s3 == ':') &&
    isHexDigit d7 && isHexDigit d8 && (s4 == ':') &&
    isHexDigit d9 && isHexDigit d10 && (s5 == ':') &&
    isHexDigit d11 && isHexDigit d12
  | _ => false

/-- Consume exactly n characters of class p. -/
def takeExact (p : Char → Bool) : Nat → List Char → Option (List Char × List Char)
  | 0, cs => some ([], cs)
  | _ + 1, [] => none
  | n + 1, c :: cs =>
    if p c then (takeExact p n cs).map (fun g => (c :: g.1, g.2)) else none

/-- Consume one character of class p. -/
def takeChar (p : Char → Bool) : List Char → Option (Char × List Char)
  | [] => none
  | c :: cs => if p c then some (c, cs) else none

/-- Consume a maximal nonempty run of characters of class p
(a greedy plus-quantified class). -/
def takePlus (p : Char → Bool) (cs : List Char) : Option (List Char × List Char) :=
  let g := cs.takeWhile p
  if g.isEmpty then none else some (g, cs.dropWhile p)

/-- Consume a literal, case-insensitively (the patterns carry re.IGNORECASE). -/
def takeLitCI : List Char → List Char → Option (List Char)
  | [], cs => some cs
  | _ :: _, [] => none
  | l :: ls, c :: cs =>
    if pyToLower c == pyToLower l then takeLitCI ls cs else none

/-- Named groups of the Huawei row pattern (mac_scanner.py lines 95-101). -/
structure HuaweiGroups where
  mac : List Char
  vlan : List Char
  interface : List Char
  type : List Char
deriving DecidableEq

/-- The Huawei row pattern anchored at the current position:
hex{4} - hex{4} - hex{4}, then whitespace-separated vlan, interface and
type tokens (each a nonempty non-space run), with re.IGNORECASE. -/
def matchHuaweiAt (cs : List Char) : Option HuaweiGroups := do
  let (m1, r0) ← takeExact isHexDigit 4 cs
  let (_, r1) ← takeChar (fun c => c == '-') r0
  let (m2, r2) ← takeExact isHexDigit 4 r1
  let (_, r3) ← takeChar (fun c => c == '-') r2
  let (m3, r4) ← takeExact isHexDigit 4 r3
  let (_, r5) ← takePlus isSpaceChar r4
  let (vlan, r6) ← takePlus (fun c => !isSpaceChar c) r5
  let (_, r7) ← takePlus isSpaceChar r6
  let (intf, r8) ← takePlus (fun c => !isSpaceChar c) r7
  let (_, r9) ← takePlus isSpaceChar r8
  let (typ, _) ← takePlus (fun c => !isSpaceChar c) r9
  pure ⟨m1 ++ '-' :: m2 ++ '-' :: m3, vlan, intf, typ⟩

/-- re.search for the Huawei row pattern: leftmost matching position. -/
def searchHuawei : List Char → Option HuaweiGroups
  | [] => none
  | c :: cs =>
    match matchHuaweiAt (c :: cs) with
    | some g => some g
    | none => searchHuawei cs

/-- Named groups of the Alcatel row pattern (mac_scanner.py lines 148-154). -/
structure AlcatelGroups where
  service : List Char
  mac : List Char
  interface : List Char
  age : List Char
  timestamp : List Char
deriving DecidableEq

/-- MAC separator class of the Alcatel pattern: colon or hyphen. -/
def isMacSep (c : Char) : Bool := c == ':' || c == '-'

/-- Age prefix class [LD] with re.IGNORECASE. -/
def isAgeChar (c : Char) : Bool := c == 'L' || c == 'l' || c == 'D' || c == 'd'

/-- Interface class of the Alcatel pattern: word characters, hyphen, colon.
Note that the forward slash is NOT in this class. -/
def isSapChar (c : Char) : Bool := isWordChar c || c == '-' || c == ':'

/-- The MAC fragment of the Alcatel pattern:
([0-9a-f]{2}[:-]){5}[0-9a-f]{2}, returning the captured text. -/
def matchAlcatelMac (cs : List Char) : Option (List Char × List Char) := do
  let (g1, r2) ← takeExact isHexDigit 2 cs
  let (s1, r3) ← takeChar isMacSep r2
  let (g2, r4) ← takeExact isHexDigit 2 r3
  let (s2, r5) ← takeChar isMacSep r4
  let (g3, r6) ← takeExact isHexDigit 2 r5
  let (s3, r7) ← takeChar isMacSep r6
  let (g4, r8) ← takeExact isHexDigit 2 r7
  let (s4, r9) ← takeChar isMacSep r8
  let (g5, r10) ← takeExact isHexDigit 2 r9
  let (s5, r11) ← takeChar isMacSep r10
  let (g6, r12) ← takeExact isHexDigit 2 r11
  pure (g1 ++ s1 :: g2 ++ s2 :: g3 ++ s3 :: g4 ++ s4 :: g5 ++ s5 :: g6, r12)

/-- The age fragment of the Alcatel pattern: [LD]/digits,
returning the captured text. -/
def matchAlcatelAge (cs : List Char) : Option (List Char × List Char) := do
  let (a1, r17) ← takeChar isAgeChar cs
  let (a2, r18) ← takeChar (fun c => c == '/') r17
  let (a3, r19) ← takePlus isDigitChar r18
  pure (a1 :: a2 :: a3, r19)

/-- The timestamp fragment of the Alcatel pattern:
dd/dd/dd whitespace dd:dd:dd, returning the captured text (which includes
the whitespace run actually matched). -/
def matchAlcatelTimestamp (cs : List Char) : Option (List Char × List Char) := do
  let (t1, r21) ← takeExact isDigitChar 2 cs
  let (u1, r22) ← takeChar (fun c => c == '/') r21
  let (t2, r23) ← takeExact isDigitChar 2 r22
  let (u2, r24) ← takeChar (fun c => c == '/') r23
  let (t3, r25) ← takeExact isDigitChar 2 r24
  let (w, r26) ← takePlus isSpaceChar r25
  let (t4, r27) ← takeExact isDigitChar 2 r26
  let (v1, r28) ← takeChar (fun c => c == ':') r27
  let (t5, r29) ← takeExact isDigitChar 2 r28
  let (v2, r30) ← takeChar (fun c => c == ':') r29
  let (t6, r31) ← takeExact isDigitChar 2 r30
  pure (t1 ++ u1 :: t2 ++ u2 :: t3 ++ w ++ t4 ++ v1 :: t5 ++ v2 :: t6, r31)

/-- The Alcatel row pattern anchored at the current position:
digits, whitespace, a 6-group colon/hyphen MAC, whitespace, the literal
sap: followed by the interface token, whitespace, L/n or D/n age,
whitespace, and a dd/mm/yy hh:mm:ss timestamp, with re.IGNORECASE. -/
def matchAlcatelAt (cs : List Char) : Option AlcatelGroups := do
  let (service, r0) ← takePlus isDigitChar cs
  let (_, r1) ← takePlus isSpaceChar r0
  let (mac, r12) ← matchAlcatelMac r1
  let (_, r13) ← takePlus isSpaceChar r12
  let r14 ← takeLitCI (("sap:").data) r13
  let (intf, r15) ← takePlus isSapChar r14
  let (_, r16) ← takePlus isSpaceChar r15
  let (age, r19) ← matchAlcatelAge r16
  let (_, r20) ← takePlus isSpaceChar r19
  let (ts, _) ← matchAlcatelTimestamp r20
  pure ⟨service, mac, intf, age, ts⟩

/-- re.search for the Alcatel row pattern: leftmost matching position. -/
def searchAlcatel : List Char → Option AlcatelGroups
  | [] => none
  | c :: cs =>
    match matchAlcatelAt (c :: cs) with
    | some g => some g
    | none => searchAlcatel cs

/-- The tuple returned by the vendor handlers (mac_scanner.py lines 113
and 165): mac, interface, device ip, hostname, and the two vendor-specific
labeled attributes. -/
structure MatchRecord where
  mac : List Char
  interface : List Char
  ip : List Char
  hostname : List Char
  attr1 : List Char
  attr2 : List Char
deriving DecidableEq

/-- mac_scanner.py lines 106-113: build the Huawei record from the groups
of a matching line. -/
def mkHuaweiRecord (hostname ip : List Char) (g : HuaweiGroups) : MatchRecord :=
  ⟨huawei_mac_to_standard (pyUpper g.mac), g.interface, ip, hostname,
   ("VLAN/VSI=").data ++ g.vlan, ("Type=").data ++ g.type⟩

/-- mac_scanner.py lines 103-115: scan the output line by line and return
the record of the first line on which the Huawei row pattern matches. -/
def huaweiParse (hostname ip mac_output : List Char) : Option MatchRecord :=
  (splitLines mac_output).findSome?
    (fun line => (searchHuawei line).map (mkHuaweiRecord hostname ip))

/-- mac_scanner.py lines 159-165: build the Alcatel record from the groups
of a matching line (hyphens in the mac replaced by colons, then uppercased). -/
def mkAlcatelRecord (hostname ip : List Char) (g : AlcatelGroups) : MatchRecord :=
  ⟨pyUpper (g.mac.map (fun c => if c == '-' then ':' else c)), g.interface,
   ip, hostname,
   ("Service=").data ++ g.service, ("LastSeen=").data ++ g.timestamp⟩

/-- mac_scanner.py lines 156-167: scan the output line by line and return
the record of the first line on which the Alcatel row pattern matches. -/
def alcatelParse (hostname ip mac_output : List Char) : Option MatchRecord :=
  (splitLines mac_output).findSome?
    (fun line => (searchAlcatel line).map (mkAlcatelRecord hostname ip))

/-- How the polling loop ended. -/
inductive LoopExit where
  /-- The handler returned None from inside the loop
  (stop event set, or empty output). -/
  | earlyNone : LoopExit
  /-- The while condition expired; the payload is the last output read
  (none when the loop body never ran, in which case the source would
  raise NameError at the containment recheck, see handlerCrashes). -/
  | timedOut : Option (List Char) → LoopExit
  /-- The loop ended via break: the output contains the target. -/
  | matched : List Char → LoopExit
deriving DecidableEq

/-- The shared polling loop.  Second component: number of reads performed. -/
def pollLoop (stop : Bool) (target : List Char) :
    List (List Char) → Option (List Char) → LoopExit × Nat
  | [], last => (.timedOut last, 0)
  | o :: rest, _last =>
    if stop then (.earlyNone, 0)
    else
      let out := pyStrip o
      if out = [] then (.earlyNone, 1)
      else if isSubstr target (pyLower out) then (.matched out, 1)
      else
        let r := pollLoop stop target rest (some out)
        (r.1, r.2 + 1)

/-- mac_scanner.py line 70: the containment target of the Huawei handler,
the Huawei-form MAC lowercased. -/
def huaweiTarget (search_mac : List Char) : List Char :=
  pyLower (mac_to_huawei_format search_mac)

/-- mac_scanner.py line 123: the containment target of the Alcatel handler,
the search MAC lowercased verbatim (separators kept). -/
def alcatelTarget (search_mac : List Char) : List Char := pyLower search_mac

/-- mac_scanner.py lines 65-115: the Huawei handler.  Returns the record of
the first structurally matching output line, or none.  The timedOut-none
arm stands for the source's NameError on an unbound mac_output, which the
caller's except block turns into a None result (see handlerCrashes). -/
def handle_huawei_device (stop : Bool) (hostname ip search_mac : List Char)
    (outs : List (List Char)) : Option MatchRecord :=
  if stop then none
  else
    let huawei_mac := huaweiTarget search_mac
    match (pollLoop stop huawei_mac outs none).1 with
    | .earlyNone => none
    | .timedOut none => none
    | .timedOut (some mac_output) =>
      if isSubstr huawei_mac (pyLower mac_output) then
        huaweiParse hostname ip mac_output
      else none
    | .matched mac_output =>
      if isSubstr huawei_mac (pyLower mac_output) then
        huaweiParse hostname ip mac_output
      else none

/-- mac_scanner.py lines 118-167: the Alcatel handler, same shape. -/
def handle_alcatel_device (stop : Bool) (hostname ip search_mac : List Char)
    (outs : List (List Char)) : Option MatchRecord :=
  if stop then none
  else
    let search_mac_lower := alcatelTarget search_mac
    match (pollLoop stop search_mac_lower outs none).1 with
    | .earlyNone => none
    | .timedOut none => none
    | .timedOut (some mac_output) =>
      if isSubstr search_mac_lower (pyLower mac_output) then
        alcatelParse hostname ip mac_output
      else none
    | .matched mac_output =>
      if isSubstr search_mac_lower (pyLower mac_output) then
        alcatelParse hostname ip mac_output
      else none

/-- A vendor handler raises (rather than returns) exactly when the while
loop body never runs, so that line 91/144 reads the unbound mac_output:
possible only when the loop times out with no output ever read.  The
exception is caught by handle_device's except block. -/
def handlerCrashes (stop : Bool) (target : List Char)
    (outs : List (List Char)) : Bool :=
  if stop then false
  else decide ((pollLoop stop target outs none).1 = LoopExit.timedOut none)

/-- The Huawei match decision for a raw command-line MAC argument. -/
def huaweiDecision (argv_mac output : List Char) : Bool :=
  isSubstr (huaweiTarget (pyLower argv_mac)) (pyLower output)

/-- The Alcatel match decision for a raw command-line MAC argument. -/
def alcatelDecision (argv_mac output : List Char) : Bool :=
  isSubstr (alcatelTarget (pyLower argv_mac)) (pyLower output)

structure DeviceCtx where
  stopAtEntry : Bool
  connectOk : Bool
  raiseAfterConnect : Bool
  stopInHandler : Bool
  outs : List (List Char)
  hostname : List Char

/-- Observable outcome of one handle_device invocation: the returned
result, how many times the completed-devices counter was incremented
under the progress lock (lines 180, 187, 218), whether ssh_connect was
invoked, and whether conn.disconnect() (line 211) ran. -/
structure DeviceRun where
  result : Option MatchRecord
  increments : Nat
  attemptedConnect : Bool
  disconnected : Bool
deriving DecidableEq

/-- mac_scanner.py lines 170-219.  Control flow: early return on the stop
event (line 174, before any counting); split the line on commas and skip
unless exactly two fields (lines 177-182); normalize the vendor token and
skip unless recognized (lines 184-189); connect (failure still counts via
the finally block); run the vendor handler; disconnect only on the
non-exception path; count once in the finally block. -/
def handle_device (ctx : DeviceCtx) (device_info search_mac : List Char) :
    DeviceRun :=
  if ctx.stopAtEntry then ⟨none, 0, false, false⟩
  else
    match pySplit ',' (pyStrip device_info) with
    | [p0, p1] =>
      let ip := pyStrip p0
      let vendor := pyLower (pyStrip p1)
      if vendor = ("huawei").data ∨ vendor = ("alcatel_aos").data then
        if ctx.connectOk = false then ⟨none, 1, true, false⟩
        else
          let crash :=
            if vendor = ("huawei").data then
              handlerCrashes ctx.stopInHandler (huaweiTarget search_mac) ctx.outs
            else
              handlerCrashes ctx.stopInHandler (alcatelTarget search_mac) ctx.outs
          if ctx.raiseAfterConnect || crash then ⟨none, 1, true, false⟩
          else if vendor = ("huawei").data then
            ⟨handle_huawei_device ctx.stopInHandler ctx.hostname ip search_mac
               ctx.outs, 1, true, true⟩
          else
            ⟨handle_alcatel_device ctx.stopInHandler ctx.hostname ip search_mac
               ctx.outs, 1, true, true⟩
      else ⟨none, 1, false, false⟩
    | _ => ⟨none, 1, false, false⟩

/-- A malformed device-list line: after stripping and splitting on commas,
either the field count is not two or the vendor token (stripped,
lowercased) is not one of the two recognized values
(mac_scanner.py lines 177-189). -/
def malformed_line (device_info : List Char) : Bool :=
  match pySplit ',' (pyStrip device_info) with
  | [_, p1] =>
    !(pyLower (pyStrip p1) = ("huawei").data ∨
      pyLower (pyStrip p1) = ("alcatel_aos").data : Bool)
  | _ => true

/-- mac_scanner.py lines 259-282: the coordinator's result-consumption
loop over poller results in completion order.  A worker whose future
raised is reported and contributes nothing (lines 275-277), like a None
result.  First component: the Global Stop Signal after the loop (the
handlers set it when producing a record, lines 112/164, and the
coordinator sets it again at line 273 before breaking); second component:
found_result. -/
def coordRun (event : Bool) :
    List (Option MatchRecord) → Bool × Option MatchRecord
  | [] => (event, none)
  | none :: rest => coordRun event rest
  | some r :: _ => (true, some r)

/-- mac_scanner.py lines 222-235, as a pure function of the progress
counters, the optional scan start time and the current time (rationals
model the wall-clock floats).  Returns the data of the printed progress
line — completed, total, projected ETA seconds — or none when
scan_start_time is unset (lines 226-227).  The average-per-device division
is guarded by the completed_devices > 0 test (line 230). -/
def print_progress (total_devices completed_devices : Nat)
    (scan_start_time : Option ℚ) (now : ℚ) : Option (Nat × Nat × ℚ) :=
  match scan_start_time with
  | none => none
  | some t0 =>
    let elapsed := now - t0
    let avg_time_per_device : ℚ :=
      if completed_devices > 0 then elapsed / (completed_devices : ℚ) else 0
    let remaining_devices : ℚ :=
      (total_devices : ℚ) - (completed_devices : ℚ)
    let eta_seconds := avg_time_per_device * remaining_devices
    some (completed_devices, total_devices, eta_seconds)

theorem tableGet_mem_or_id (t : List (Char × Char)) (c : Char) :
    tableGet t c = c ∨ (c, tableGet t c) ∈ t := by
  induction t with
  | nil => exact Or.inl rfl
  | cons p rest ih =>
    obtain ⟨k, v⟩ := p
    by_cases h : k == c
    · right
      have hk : k = c := eq_of_beq h
      simp [tableGet, h, hk]
    · rcases ih with h1 | h1
      · left
        simpa [tableGet, h] using h1
      · right
        have : tableGet ((k, v) :: rest) c = tableGet rest c := by
          simp [tableGet, h]
        rw [this]
        exact List.mem_cons_of_mem _ h1

theorem isHexDigit_pyToLower (c : Char) :
    isHexDigit (pyToLower c) = isHexDigit c := by
  rcases tableGet_mem_or_id lowerTable c with h | h
  · rw [pyToLower, h]
  · have hall : ∀ p ∈ lowerTable, isHexDigit p.2 = isHexDigit p.1 := by decide
    exact hall (c, pyToLower c) h

theorem pyToUpper_pyToLower_of_hex (c : Char) (h : isHexDigit c = true) :
    pyToUpper (pyToLower c) = pyToUpper c := by
  have hmem : c ∈ hexDigits := of_decide_eq_true h
  have hall : ∀ x ∈ hexDigits, pyToUpper (pyToLower x) = pyToUpper x := by decide
  exact hall c hmem

theorem hex_beq_dash_false (c : Char) (h : isHexDigit c = true) :
    (c == '-') = false := by
  have hmem : c ∈ hexDigits := of_decide_eq_true h
  have hall : ∀ x ∈ hexDigits, (x == '-') = false := by decide
  exact hall c hmem

theorem isHexDigit_colon : isHexDigit ':' = false := by decide

theorem colon_beq_dash : (':' == '-') = false := by decide

theorem pyToUpper_colon : pyToUpper ':' = ':' := by decide

/-- Claim C2: for every valid standard MAC string (six colon-separated
two-hex-digit groups), converting it to Huawei triplet-hyphenated form with
mac_to_huawei_format and converting back with huawei_mac_to_standard yields
the original MAC normalized to uppercase colon-separated form. -/
theorem huawei_mac_roundtrip (l : List Char) (h : isStdMac l = true) :
    huawei_mac_to_standard (mac_to_huawei_format l) = pyUpper l := by
  rcases l with _ | ⟨d1, l⟩; · simp [isStdMac] at h
  rcases l with _ | ⟨d2, l⟩; · simp [isStdMac] at h
  rcases l with _ | ⟨s1, l⟩; · simp [isStdMac] at h
  rcases l with _ | ⟨d3, l⟩; · simp [isStdMac] at h
  rcases l with _ | ⟨d4, l⟩; · simp [isStdMac] at h
  rcases l with _ | ⟨s2, l⟩; · simp [isStdMac] at h
  rcases l with _ | ⟨d5, l⟩; · simp [isStdMac] at h
  rcases l with _ | ⟨d6, l⟩; · simp [isStdMac] at h
  rcases l with _ | ⟨s3, l⟩; · simp [isStdMac] at h
  rcases l with _ | ⟨d7, l⟩; · simp [isStdMac] at h
  rcases l with _ | ⟨d8, l⟩; · simp [isStdMac] at h
  rcases l with _ | ⟨s4, l⟩; · simp [isStdMac] at h
  rcases l with _ | ⟨d9, l⟩; · simp [isStdMac] at h
  rcases l with _ | ⟨d10, l⟩; · simp [isStdMac] at h
  rcases l with _ | ⟨s5, l⟩; · simp [isStdMac] at h
  rcases l with _ | ⟨d11, l⟩; · simp [isStdMac] at h
  rcases l with _ | ⟨d12, l⟩; · simp [isStdMac] at h
  rcases l with _ | ⟨x, l⟩
  on_goal 2 => simp [isStdMac] at h
  simp only [isStdMac, Bool.and_eq_true, beq_iff_eq, and_assoc] at h
  obtain ⟨h1, h2, hs1, h3, h4, hs2, h5, h6, hs3, h7, h8, hs4, h9, h10, hs5,
    h11, h12⟩ := h
  subst hs1 hs2 hs3 hs4 hs5
  simp [mac_to_huawei_format, huawei_mac_to_standard, pyLower, pyUpper,
    List.filter_cons, h1, h2, h3, h4, h5, h6, h7, h8, h9, h10, h11, h12,
    isHexDigit_colon, colon_beq_dash, pyToUpper_colon,
    hex_beq_dash_false _ h1, hex_beq_dash_false _ h2, hex_beq_dash_false _ h3,
    hex_beq_dash_false _ h4, hex_beq_dash_false _ h5, hex_beq_dash_false _ h6,
    hex_beq_dash_false _ h7, hex_beq_dash_false _ h8, hex_beq_dash_false _ h9,
    hex_beq_dash_false _ h10, hex_beq_dash_false _ h11, hex_beq_dash_false _ h12,
    pyToUpper_pyToLower_of_hex _ h1, pyToUpper_pyToLower_of_hex _ h2,
    pyToUpper_pyToLower_of_hex _ h3, pyToUpper_pyToLower_of_hex _ h4,
    pyToUpper_pyToLower_of_hex _ h5, pyToUpper_pyToLower_of_hex _ h6,
    pyToUpper_pyToLower_of_hex _ h7, pyToUpper_pyToLower_of_hex _ h8,
    pyToUpper_pyToLower_of_hex _ h9, pyToUpper_pyToLower_of_hex _ h10,
    pyToUpper_pyToLower_of_hex _ h11, pyToUpper_pyToLower_of_hex _ h12]

/-- Witness for C2: the round trip at a concrete mixed-case MAC. -/
theorem huawei_mac_roundtrip_witness :
    isStdMac (("aB:0f:C9:dD:Ee:F0").data) = true ∧
    huawei_mac_to_standard (mac_to_huawei_format (("aB:0f:C9:dD:Ee:F0").data))
      = pyUpper (("aB:0f:C9:dD:Ee:F0").data) :=
  ⟨by decide, huawei_mac_roundtrip (("aB:0f:C9:dD:Ee:F0").data) (by decide)⟩

/-- Claim C1 (code bug): on the specification's own Vendor B example line
the Alcatel row pattern has no structural match, because the interface
character class [word,hyphen,colon] excludes the forward slash, so
sap:1/1/1:100 can never satisfy the pattern.  The containment test does
succeed, so the polling loop exits successfully, yet the handler returns
no record instead of the claimed service=100 / mac=AA:BB:CC:DD:EE:FF /
interface=1/1/1:100 / lastSeen=01/02/24 10:00:00 record. -/
theorem alcatel_spec_example_returns_none :
    searchAlcatel
      (("100  AA:BB:CC:DD:EE:FF sap:1/1/1:100 L/300 01/02/24 10:00:00").data)
      = none ∧
    isSubstr (alcatelTarget (("aa:bb:cc:dd:ee:ff").data))
      (pyLower
        (("100  AA:BB:CC:DD:EE:FF sap:1/1/1:100 L/300 01/02/24 10:00:00").data))
      = true ∧
    handle_alcatel_device false (("SW1").data) (("10.0.0.1").data)
      (("aa:bb:cc:dd:ee:ff").data)
      [("100  AA:BB:CC:DD:EE:FF sap:1/1/1:100 L/300 01/02/24 10:00:00").data]
      = none := by
  refine ⟨by decide, by decide, by decide⟩

/-- Claim C3 counterexample: two command-line MAC arguments that denote the
same 12 hex digits and differ only in separator characters (colon vs
hyphen), yet the Alcatel per-device match decision differs on an output
containing the colon form: the scan target is only lowercased, never
canonicalized to a separator-free form. -/
theorem alcatel_decision_separator_sensitive :
    (("aa:bb:cc:dd:ee:ff").data).filter isHexDigit
      = (("aa-bb-cc-dd-ee-ff").data).filter isHexDigit ∧
    alcatelDecision (("aa:bb:cc:dd:ee:ff").data)
      (("100  AA:BB:CC:DD:EE:FF sap:1/1/1:100 L/300 01/02/24 10:00:00").data)
      = true ∧
    alcatelDecision (("aa-bb-cc-dd-ee-ff").data)
      (("100  AA:BB:CC:DD:EE:FF sap:1/1/1:100 L/300 01/02/24 10:00:00").data)
      = false := by
  refine ⟨by decide, by decide, by decide⟩

theorem filter_hex_pyLower (t : List Char) :
    (pyLower t).filter isHexDigit = pyLower (t.filter isHexDigit) := by
  induction t with
  | nil => rfl
  | cons a l ih =>
    simp only [pyLower, List.map_cons, List.filter_cons, isHexDigit_pyToLower a]
    cases h : isHexDigit a
    · simpa [h] using ih
    · simpa [h] using ih

/-- Claim C3 amended: the per-device match decision is case-insensitive in
the command-line MAC for both vendors; it is additionally
separator-insensitive for the Huawei handler (whose target is rebuilt from
the hex digits only), but not for the Alcatel handler, whose target is the
lowercased argument verbatim. -/
theorem scan_decision_sensitivity (t1 t2 out : List Char) :
    (pyLower t1 = pyLower t2 →
      huaweiDecision t1 out = huaweiDecision t2 out ∧
      alcatelDecision t1 out = alcatelDecision t2 out) ∧
    (pyLower (t1.filter isHexDigit) = pyLower (t2.filter isHexDigit) →
      huaweiDecision t1 out = huaweiDecision t2 out) := by
  constructor
  · intro h
    constructor
    · simp only [huaweiDecision, huaweiTarget, h]
    · simp only [alcatelDecision, alcatelTarget, h]
  · intro h2
    have key : mac_to_huawei_format (pyLower t1)
        = mac_to_huawei_format (pyLower t2) := by
      unfold mac_to_huawei_format
      rw [filter_hex_pyLower, filter_hex_pyLower, h2]
    simp only [huaweiDecision, huaweiTarget, key]

/-- Witness for the amended C3 at concrete case-variant arguments. -/
theorem scan_decision_sensitivity_witness :
    pyLower (("AA:BB:cc:dd:ee:ff").data) = pyLower (("aa:bb:cc:dd:ee:ff").data) ∧
    pyLower ((("AA:BB:cc:dd:ee:ff").data).filter isHexDigit)
      = pyLower ((("aa:bb:cc:dd:ee:ff").data).filter isHexDigit) ∧
    huaweiDecision (("AA:BB:cc:dd:ee:ff").data) (("xyz").data)
      = huaweiDecision (("aa:bb:cc:dd:ee:ff").data) (("xyz").data) ∧
    alcatelDecision (("AA:BB:cc:dd:ee:ff").data) (("xyz").data)
      = alcatelDecision (("aa:bb:cc:dd:ee:ff").data) (("xyz").data) :=
  ⟨by decide, by decide,
   ((scan_decision_sensitivity (("AA:BB:cc:dd:ee:ff").data)
      (("aa:bb:cc:dd:ee:ff").data) (("xyz").data)).1 (by decide)).1,
   ((scan_decision_sensitivity (("AA:BB:cc:dd:ee:ff").data)
      (("aa:bb:cc:dd:ee:ff").data) (("xyz").data)).1 (by decide)).2⟩

/-- Claim C4 counterexample: the Huawei polling loop exits successfully and
a record is returned, but its MAC field is the MAC of the first
structurally matching output line (11:11:22:22:33:33), not the searched
target normalized to uppercase colon form (AA:BB:CC:DD:EE:FF). -/
theorem huawei_record_mac_mismatch :
    handle_huawei_device false (("SW1").data) (("10.0.0.1").data)
      (("aa:bb:cc:dd:ee:ff").data)
      [("1111-2222-3333 10 GE0/0/1 dynamic\naabb-ccdd-eeff 20 GE0/0/2 dynamic").data]
      = some ⟨("11:11:22:22:33:33").data, ("GE0/0/1").data, ("10.0.0.1").data,
             ("SW1").data, ("VLAN/VSI=10").data, ("Type=dynamic").data⟩ ∧
    ("11:11:22:22:33:33").data ≠ pyUpper (("aa:bb:cc:dd:ee:ff").data) := by
  refine ⟨by decide, by decide⟩

theorem pollLoop_final_out_mem (stop : Bool) (target : List Char)
    (outs : List (List Char)) (last : Option (List Char)) (out : List Char) :
    ((pollLoop stop target outs last).1 = LoopExit.matched out →
      ∃ o ∈ outs, out = pyStrip o) ∧
    ((pollLoop stop target outs last).1 = LoopExit.timedOut (some out) →
      (∃ o ∈ outs, out = pyStrip o) ∨ last = some out) := by
  induction outs generalizing last with
  | nil =>
    constructor
    · intro h
      simp [pollLoop] at h
    · intro h
      simp only [pollLoop] at h
      exact Or.inr (by injection h)
  | cons o rest ih =>
    simp only [pollLoop]
    split
    · constructor <;> intro h <;> simp at h
    · split
      · constructor <;> intro h <;> simp at h
      · split
        · constructor
          · intro h
            injection h with h1
            exact ⟨o, by simp, h1.symm⟩
          · intro h
            simp at h
        · constructor
          · intro h
            obtain ⟨o1, ho1, heq⟩ := (ih (some (pyStrip o))).1 h
            exact ⟨o1, by simp [ho1], heq⟩
          · intro h
            rcases (ih (some (pyStrip o))).2 h with ⟨o1, ho1, heq⟩ | hlast
            · exact Or.inl ⟨o1, by simp [ho1], heq⟩
            · injection hlast with h1
              exact Or.inl ⟨o, by simp, h1.symm⟩

/-- Claim C4 amended: whenever a vendor handler returns a Match Record, the
record is the parse (first structurally matching line) of the stripped text
of one of the polled outputs, and that text contains the vendor-form target
as a substring; the record's MAC field is the MAC of the matching line and
need not equal the searched target. -/
theorem handler_record_from_matching_output (stop : Bool)
    (host ip m : List Char) (outs : List (List Char)) (r : MatchRecord) :
    (handle_huawei_device stop host ip m outs = some r →
      ∃ o ∈ outs, isSubstr (huaweiTarget m) (pyLower (pyStrip o)) = true ∧
        huaweiParse host ip (pyStrip o) = some r) ∧
    (handle_alcatel_device stop host ip m outs = some r →
      ∃ o ∈ outs, isSubstr (alcatelTarget m) (pyLower (pyStrip o)) = true ∧
        alcatelParse host ip (pyStrip o) = some r) := by
  constructor
  · intro h1
    unfold handle_huawei_device at h1
    simp only [] at h1
    split at h1
    · exact absurd h1 (by simp)
    · split at h1
      · exact absurd h1 (by simp)
      · exact absurd h1 (by simp)
      · rename_i mac_output hpoll
        split at h1
        · rename_i hsub
          rcases (pollLoop_final_out_mem stop (huaweiTarget m) outs none
              mac_output).2 hpoll with ⟨o, ho, rfl⟩ | hnone
          · exact ⟨o, ho, hsub, h1⟩
          · exact absurd hnone (by simp)
        · exact absurd h1 (by simp)
      · rename_i mac_output hpoll
        split at h1
        · rename_i hsub
          obtain ⟨o, ho, rfl⟩ := (pollLoop_final_out_mem stop (huaweiTarget m)
            outs none mac_output).1 hpoll
          exact ⟨o, ho, hsub, h1⟩
        · exact absurd h1 (by simp)
  · intro h2
    unfold handle_alcatel_device at h2
    simp only [] at h2
    split at h2
    · exact absurd h2 (by simp)
    · split at h2
      · exact absurd h2 (by simp)
      · exact absurd h2 (by simp)
      · rename_i mac_output hpoll
        split at h2
        · rename_i hsub
          rcases (pollLoop_final_out_mem stop (alcatelTarget m) outs none
              mac_output).2 hpoll with ⟨o, ho, rfl⟩ | hnone
          · exact ⟨o, ho, hsub, h2⟩
          · exact absurd hnone (by simp)
        · exact absurd h2 (by simp)
      · rename_i mac_output hpoll
        split at h2
        · rename_i hsub
          obtain ⟨o, ho, rfl⟩ := (pollLoop_final_out_mem stop (alcatelTarget m)
            outs none mac_output).1 hpoll
          exact ⟨o, ho, hsub, h2⟩
        · exact absurd h2 (by simp)

/-- Witness for the amended C4: a concrete polled output on which each
handler returns a record, discharging each implication's antecedent. -/
theorem handler_record_from_matching_output_witness :
    handle_huawei_device false (("SW1").data) (("10.0.0.1").data)
      (("aa:bb:cc:dd:ee:ff").data)
      [("aabb-ccdd-eeff 10 GE0/0/1 dynamic\n100  aa:bb:cc:dd:ee:ff sap:lag-1:100 L/300 01/02/24 10:00:00").data]
      = some ⟨("AA:BB:CC:DD:EE:FF").data, ("GE0/0/1").data, ("10.0.0.1").data,
             ("SW1").data, ("VLAN/VSI=10").data, ("Type=dynamic").data⟩ ∧
    handle_alcatel_device false (("SW1").data) (("10.0.0.1").data)
      (("aa:bb:cc:dd:ee:ff").data)
      [("aabb-ccdd-eeff 10 GE0/0/1 dynamic\n100  aa:bb:cc:dd:ee:ff sap:lag-1:100 L/300 01/02/24 10:00:00").data]
      = some ⟨("AA:BB:CC:DD:EE:FF").data, ("lag-1:100").data, ("10.0.0.1").data,
             ("SW1").data, ("Service=100").data, ("LastSeen=01/02/24 10:00:00").data⟩ ∧
    (∃ o ∈ [("aabb-ccdd-eeff 10 GE0/0/1 dynamic\n100  aa:bb:cc:dd:ee:ff sap:lag-1:100 L/300 01/02/24 10:00:00").data],
       isSubstr (huaweiTarget (("aa:bb:cc:dd:ee:ff").data)) (pyLower (pyStrip o)) = true ∧
       huaweiParse (("SW1").data) (("10.0.0.1").data) (pyStrip o)
         = some ⟨("AA:BB:CC:DD:EE:FF").data, ("GE0/0/1").data, ("10.0.0.1").data,
                ("SW1").data, ("VLAN/VSI=10").data, ("Type=dynamic").data⟩) ∧
    (∃ o ∈ [("aabb-ccdd-eeff 10 GE0/0/1 dynamic\n100  aa:bb:cc:dd:ee:ff sap:lag-1:100 L/300 01/02/24 10:00:00").data],
       isSubstr (alcatelTarget (("aa:bb:cc:dd:ee:ff").data)) (pyLower (pyStrip o)) = true ∧
       alcatelParse (("SW1").data) (("10.0.0.1").data) (pyStrip o)
         = some ⟨("AA:BB:CC:DD:EE:FF").data, ("lag-1:100").data, ("10.0.0.1").data,
                ("SW1").data, ("Service=100").data, ("LastSeen=01/02/24 10:00:00").data⟩) :=
  ⟨by decide, by decide,
   (handler_record_from_matching_output false (("SW1").data) (("10.0.0.1").data)
     (("aa:bb:cc:dd:ee:ff").data)
     [("aabb-ccdd-eeff 10 GE0/0/1 dynamic\n100  aa:bb:cc:dd:ee:ff sap:lag-1:100 L/300 01/02/24 10:00:00").data]
     ⟨("AA:BB:CC:DD:EE:FF").data, ("GE0/0/1").data, ("10.0.0.1").data,
      ("SW1").data, ("VLAN/VSI=10").data, ("Type=dynamic").data⟩).1 (by decide),
   (handler_record_from_matching_output false (("SW1").data) (("10.0.0.1").data)
     (("aa:bb:cc:dd:ee:ff").data)
     [("aabb-ccdd-eeff 10 GE0/0/1 dynamic\n100  aa:bb:cc:dd:ee:ff sap:lag-1:100 L/300 01/02/24 10:00:00").data]
     ⟨("AA:BB:CC:DD:EE:FF").data, ("lag-1:100").data, ("10.0.0.1").data,
      ("SW1").data, ("Service=100").data, ("LastSeen=01/02/24 10:00:00").data⟩).2 (by decide)⟩

/-- Claim C5 counterexample: an invocation that finds the Global Stop
Signal already set at entry returns immediately and does NOT increment the
completed-devices counter, contradicting the claim that every invocation
increments it exactly once. -/
theorem handle_device_early_abort_no_increment :
    (handle_device ⟨true, true, false, false, [], ("SW1").data⟩
      (("10.0.0.1,huawei").data) (("aa:bb:cc:dd:ee:ff").data)).increments = 0 := by
  decide

/-- Claim C5 amended: every handle_device invocation that does not abort
early on an already-set Global Stop Signal increments the shared
completed-devices counter exactly once, regardless of outcome (match,
not-found, skipped line, connection failure, or handler error); the
early-abort path increments it zero times. -/
theorem handle_device_increments_once (ctx : DeviceCtx)
    (device_info search_mac : List Char) (h : ctx.stopAtEntry = false) :
    (handle_device ctx device_info search_mac).increments = 1 := by
  unfold handle_device
  rw [h]
  simp only [Bool.false_eq_true, if_false]
  repeat' split
  all_goals rfl

/-- Witness for the amended C5 at a concrete invocation. -/
theorem handle_device_increments_once_witness :
    (DeviceCtx.stopAtEntry ⟨false, true, false, false, [("x").data], ("SW1").data⟩) = false ∧
    (handle_device ⟨false, true, false, false, [("x").data], ("SW1").data⟩
      (("10.0.0.1,huawei").data) (("aa:bb:cc:dd:ee:ff").data)).increments = 1 :=
  ⟨rfl, handle_device_increments_once
    ⟨false, true, false, false, [("x").data], ("SW1").data⟩
    (("10.0.0.1,huawei").data) (("aa:bb:cc:dd:ee:ff").data) rfl⟩

/-- Claim C6 counterexample: a session is acquired (connect attempted and
successful) but an exception raised during the vendor-handler section
lands in the except block, which returns without calling
conn.disconnect(): the session is not released. -/
theorem handle_device_leaks_session_on_error :
    (handle_device ⟨false, true, true, false, [("x").data], ("SW1").data⟩
      (("10.0.0.1,huawei").data) (("aa:bb:cc:dd:ee:ff").data)).attemptedConnect
      = true ∧
    (handle_device ⟨false, true, true, false, [("x").data], ("SW1").data⟩
      (("10.0.0.1,huawei").data) (("aa:bb:cc:dd:ee:ff").data)).disconnected
      = false := by
  refine ⟨by decide, by decide⟩

theorem pollLoop_ne_timedOut_none (stop : Bool) (target : List Char)
    (outs : List (List Char)) (last : Option (List Char))
    (h : outs ≠ [] ∨ last ≠ none) :
    (pollLoop stop target outs last).1 ≠ LoopExit.timedOut none := by
  induction outs generalizing last with
  | nil =>
    rcases h with h | h
    · exact absurd rfl h
    · simp only [pollLoop]
      intro hc
      exact h (by injection hc)
  | cons o rest ih =>
    simp only [pollLoop]
    split
    · simp
    · split
      · simp
      · split
        · simp
        · exact ih (some (pyStrip o)) (Or.inr (by simp))

/-- The vendor handlers can only raise when the output stream is empty. -/
theorem handlerCrashes_false_of_outs_ne_nil (stop : Bool) (target : List Char)
    (outs : List (List Char)) (h : outs ≠ []) :
    handlerCrashes stop target outs = false := by
  unfold handlerCrashes
  split
  · rfl
  · simpa using pollLoop_ne_timedOut_none stop target outs none (Or.inl h)

/-- Claim C6 amended: on every path on which a command session was
successfully acquired AND no exception is raised between session setup and
the disconnect call (in particular the session yields at least one output,
so the handler itself cannot raise), the session is released before
handle_device returns; when such an exception is raised, the except block
swallows it and the session is NOT released. -/
theorem handle_device_disconnects (ctx : DeviceCtx)
    (device_info search_mac : List Char)
    (hstop : ctx.stopAtEntry = false)
    (hline : malformed_line device_info = false)
    (hconn : ctx.connectOk = true)
    (hraise : ctx.raiseAfterConnect = false)
    (houts : ctx.outs ≠ []) :
    (handle_device ctx device_info search_mac).attemptedConnect = true ∧
    (handle_device ctx device_info search_mac).disconnected = true := by
  unfold malformed_line at hline
  unfold handle_device
  rw [hstop]
  simp only [Bool.false_eq_true, if_false]
  split at hline
  · rename_i p0 p1 heq
    simp only [Bool.not_eq_false', decide_eq_true_eq] at hline
    rw [if_pos hline, hconn, hraise]
    simp only [handlerCrashes_false_of_outs_ne_nil _ _ _ houts, ite_self,
      Bool.false_or, Bool.true_eq_false, if_false, Bool.false_eq_true]
    constructor <;> split <;> rfl
  · exact absurd hline (by simp)

/-- Witness for the amended C6 at a concrete invocation. -/
theorem handle_device_disconnects_witness :
    (DeviceCtx.stopAtEntry ⟨false, true, false, false, [("x").data], ("SW1").data⟩) = false ∧
    malformed_line (("10.0.0.1,huawei").data) = false ∧
    (DeviceCtx.connectOk ⟨false, true, false, false, [("x").data], ("SW1").data⟩) = true ∧
    (DeviceCtx.raiseAfterConnect ⟨false, true, false, false, [("x").data], ("SW1").data⟩) = false ∧
    (DeviceCtx.outs ⟨false, true, false, false, [("x").data], ("SW1").data⟩) ≠ [] ∧
    ((handle_device ⟨false, true, false, false, [("x").data], ("SW1").data⟩
        (("10.0.0.1,huawei").data) (("aa").data)).attemptedConnect = true ∧
     (handle_device ⟨false, true, false, false, [("x").data], ("SW1").data⟩
        (("10.0.0.1,huawei").data) (("aa").data)).disconnected = true) :=
  ⟨rfl, by decide, rfl, rfl, by decide,
   handle_device_disconnects ⟨false, true, false, false, [("x").data], ("SW1").data⟩
     (("10.0.0.1,huawei").data) (("aa").data) rfl (by decide) rfl rfl (by decide)⟩

/-- Claim C8 counterexample: the claim's universal "still increments by
exactly one" fails when the Global Stop Signal is already set at entry:
the poller returns at line 174 before the line is even read, so a
malformed line is processed with zero counter increments. -/
theorem malformed_line_early_abort_no_increment :
    malformed_line (("10.0.0.1,cisco").data) = true ∧
    (handle_device ⟨true, true, false, false, [], ("SW1").data⟩
      (("10.0.0.1,cisco").data) (("aa").data)).increments = 0 := by
  refine ⟨by decide, by decide⟩

/-- Claim C8 amended: for every malformed device-list line (field count
other than two, or an unrecognized vendor token), a handle_device
invocation that does not abort early on an already-set Global Stop Signal
returns no result, attempts no connection, surfaces no error, and still
increments the completed-devices counter exactly once; an early-abort
invocation increments it zero times (see the counterexample). -/
theorem malformed_line_skipped_and_counted (ctx : DeviceCtx)
    (device_info search_mac : List Char)
    (hstop : ctx.stopAtEntry = false)
    (hmal : malformed_line device_info = true) :
    handle_device ctx device_info search_mac = ⟨none, 1, false, false⟩ := by
  unfold handle_device
  rw [hstop]
  simp only [Bool.false_eq_true, if_false]
  unfold malformed_line at hmal
  split
  · rename_i p0 p1 heq
    rw [heq] at hmal
    split
    · rename_i hv
      simp only [decide_eq_true_eq] at hmal
      exact absurd hv (by simpa using hmal)
    · rfl
  · rfl

/-- Witness for C8: a concrete line with an unrecognized vendor token. -/
theorem malformed_line_skipped_and_counted_witness :
    (DeviceCtx.stopAtEntry ⟨false, true, false, false, [], ("SW1").data⟩) = false ∧
    malformed_line (("10.0.0.1,cisco").data) = true ∧
    handle_device ⟨false, true, false, false, [], ("SW1").data⟩
      (("10.0.0.1,cisco").data) (("aa").data) = ⟨none, 1, false, false⟩ :=
  ⟨rfl, by decide,
   malformed_line_skipped_and_counted ⟨false, true, false, false, [], ("SW1").data⟩
     (("10.0.0.1,cisco").data) (("aa").data) rfl (by decide)⟩

theorem pollLoop_empty_output (target : List Char) (pre rest : List (List Char))
    (e : List Char) (last : Option (List Char))
    (hpre : ∀ o ∈ pre, pyStrip o ≠ [] ∧
      isSubstr target (pyLower (pyStrip o)) = false)
    (he : pyStrip e = []) :
    pollLoop false target (pre ++ e :: rest) last
      = (LoopExit.earlyNone, pre.length + 1) := by
  induction pre generalizing last with
  | nil => simp [pollLoop, he]
  | cons o pre ih =>
    obtain ⟨h1, h2⟩ := hpre o (by simp)
    have hrec := ih (some (pyStrip o)) (fun x hx => hpre x (by simp [hx]))
    simp [pollLoop, h1, h2, hrec]

/-- Claim C7: if a polling iteration reads output that strips to empty,
after a prefix of nonempty non-matching outputs, the loop stops for that
device right there — exactly one read past the prefix, no further
send/sleep iterations regardless of what later outputs would have held —
and both handlers return none (NotFound), not an error. -/
theorem empty_output_stops_polling (search_mac host ip : List Char)
    (pre rest : List (List Char)) (e : List Char)
    (hpreH : ∀ o ∈ pre, pyStrip o ≠ [] ∧
      isSubstr (huaweiTarget search_mac) (pyLower (pyStrip o)) = false)
    (hpreA : ∀ o ∈ pre,
      isSubstr (alcatelTarget search_mac) (pyLower (pyStrip o)) = false)
    (he : pyStrip e = []) :
    (pollLoop false (huaweiTarget search_mac) (pre ++ e :: rest) none).2
        = pre.length + 1 ∧
    (pollLoop false (alcatelTarget search_mac) (pre ++ e :: rest) none).2
        = pre.length + 1 ∧
    handle_huawei_device false host ip search_mac (pre ++ e :: rest) = none ∧
    handle_alcatel_device false host ip search_mac (pre ++ e :: rest) = none := by
  have hH := pollLoop_empty_output (huaweiTarget search_mac) pre rest e none hpreH he
  have hA := pollLoop_empty_output (alcatelTarget search_mac) pre rest e none
    (fun o ho => ⟨(hpreH o ho).1, hpreA o ho⟩) he
  refine ⟨by rw [hH], by rw [hA], ?_, ?_⟩
  · simp [handle_huawei_device, hH]
  · simp [handle_alcatel_device, hA]

/-- Witness for C7: a session that yields a non-matching output, then an
all-whitespace output, and would later have yielded a matching output the
loop never reads. -/
theorem empty_output_stops_polling_witness :
    (∀ o ∈ [("nothing to see").data], pyStrip o ≠ [] ∧
      isSubstr (huaweiTarget (("aa:bb:cc:dd:ee:ff").data))
        (pyLower (pyStrip o)) = false) ∧
    (∀ o ∈ [("nothing to see").data],
      isSubstr (alcatelTarget (("aa:bb:cc:dd:ee:ff").data))
        (pyLower (pyStrip o)) = false) ∧
    pyStrip (("   ").data) = [] ∧
    ((pollLoop false (huaweiTarget (("aa:bb:cc:dd:ee:ff").data))
        ([("nothing to see").data] ++ ("   ").data
          :: [("aabb-ccdd-eeff 10 GE0/0/1 dynamic").data]) none).2 = 2 ∧
     (pollLoop false (alcatelTarget (("aa:bb:cc:dd:ee:ff").data))
        ([("nothing to see").data] ++ ("   ").data
          :: [("aabb-ccdd-eeff 10 GE0/0/1 dynamic").data]) none).2 = 2 ∧
     handle_huawei_device false (("SW1").data) (("10.0.0.1").data)
       (("aa:bb:cc:dd:ee:ff").data)
       ([("nothing to see").data] ++ ("   ").data
         :: [("aabb-ccdd-eeff 10 GE0/0/1 dynamic").data]) = none ∧
     handle_alcatel_device false (("SW1").data) (("10.0.0.1").data)
       (("aa:bb:cc:dd:ee:ff").data)
       ([("nothing to see").data] ++ ("   ").data
         :: [("aabb-ccdd-eeff 10 GE0/0/1 dynamic").data]) = none) :=
  ⟨by decide, by decide, by decide,
   empty_output_stops_polling (("aa:bb:cc:dd:ee:ff").data) (("SW1").data)
     (("10.0.0.1").data) [("nothing to see").data]
     [("aabb-ccdd-eeff 10 GE0/0/1 dynamic").data] (("   ").data)
     (by decide) (by decide) (by decide)⟩

/-- Claim C9: the coordinator's consumption loop is a first-Found latch.
The recorded outcome is the first Found result in completion order, so a
later NotFound completion never overwrites it; the Global Stop Signal is
monotone (once true it stays true through the loop); and whenever any
Found result exists the loop ends with the signal set and a non-none
outcome, so NotFoundAnywhere is never declared in that case. -/
theorem coordinator_first_found_latch (event : Bool)
    (results : List (Option MatchRecord)) :
    (coordRun event results).2 = results.findSome? (fun r => r) ∧
    (event = true → (coordRun event results).1 = true) ∧
    (∀ r : MatchRecord, some r ∈ results →
      (coordRun event results).1 = true ∧ (coordRun event results).2 ≠ none) := by
  induction results with
  | nil =>
    refine ⟨rfl, fun h => h, ?_⟩
    intro r hr
    simp at hr
  | cons a rest ih =>
    match a with
    | none =>
      refine ⟨?_, ?_, ?_⟩
      · simpa [coordRun, List.findSome?] using ih.1
      · intro h
        simpa [coordRun] using ih.2.1 h
      · intro r hr
        have hr' : some r ∈ rest := by simpa using hr
        simpa [coordRun] using ih.2.2 r hr'
    | some r0 =>
      refine ⟨?_, ?_, ?_⟩
      · simp [coordRun, List.findSome?]
      · intro h
        simp [coordRun]
      · intro r hr
        simp [coordRun]

/-- Witness for C9 with the signal already set and a Found result present. -/
theorem coordinator_first_found_latch_witness :
    (coordRun true [none,
        some ⟨("AA").data, ("GE").data, ("ip").data, ("h").data,
              ("a1").data, ("a2").data⟩, none]).2
      = List.findSome? (fun r => r) [none,
        some ⟨("AA").data, ("GE").data, ("ip").data, ("h").data,
              ("a1").data, ("a2").data⟩, none] ∧
    (coordRun true [none,
        some ⟨("AA").data, ("GE").data, ("ip").data, ("h").data,
              ("a1").data, ("a2").data⟩, none]).1 = true ∧
    ((coordRun true [none,
        some ⟨("AA").data, ("GE").data, ("ip").data, ("h").data,
              ("a1").data, ("a2").data⟩, none]).1 = true ∧
     (coordRun true [none,
        some ⟨("AA").data, ("GE").data, ("ip").data, ("h").data,
              ("a1").data, ("a2").data⟩, none]).2 ≠ none) :=
  ⟨(coordinator_first_found_latch true _).1,
   (coordinator_first_found_latch true _).2.1 rfl,
   (coordinator_first_found_latch true _).2.2
     ⟨("AA").data, ("GE").data, ("ip").data, ("h").data,
      ("a1").data, ("a2").data⟩ (by simp)⟩

/-- Claim C10: print_progress is total on its shared state.  When
scan_start_time is unset it returns without printing; the average
time-per-device is division-guarded, taken as 0 when completed_devices
is 0, in which case the projected ETA is 0 and a progress line is still
produced. -/
theorem print_progress_total_and_guarded (total completed : Nat)
    (scan_start_time : Option ℚ) (now : ℚ) :
    (scan_start_time = none →
      print_progress total completed scan_start_time now = none) ∧
    (completed = 0 → ∀ t0, scan_start_time = some t0 →
      print_progress total completed scan_start_time now
        = some (0, total, 0)) := by
  constructor
  · intro h
    rw [h]
    rfl
  · intro hc t0 hs
    subst hc
    subst hs
    simp [print_progress]

/-- Witness for C10 at concrete progress states: start time unset, and
zero completed devices. -/
theorem print_progress_total_and_guarded_witness :
    print_progress 5 0 none 3 = none ∧
    print_progress 5 0 (some 1) 3 = some (0, 5, 0) :=
  ⟨(print_progress_total_and_guarded 5 0 none 3).1 rfl,
   (print_progress_total_and_guarded 5 0 (some 1) 3).2 rfl 1 rfl⟩
